import Mathlib

/-
Shallow embedding of the core simulation of src/js/game.js ("I Sink Not").
JavaScript numbers are modelled as rationals (and as reals where the code
takes square roots, in the particle vector math).  Stochastic quantities
(Math.random) are passed in explicitly as oracle arguments.  Purely visual
effects (sprites, sounds, cursors, particle emission as a side effect of
other entities, DOM menus) are omitted; every field read by the simulation
logic is modelled.
-/

namespace ISinkNot

/-- Damage levels of a ship module (the strings normal / damaged / broken in game.js). -/
inductive DamageLevel
| normal
| damaged
| broken
deriving DecidableEq, Repr

/-- Discriminant for the concrete ShipModule subclasses of game.js
(the code distinguishes them by constructor.name / instanceof). -/
inductive ModuleKind
| hullModule
| nullModule
| constructionModule
| sailModule
| boilerModule
| propellerModule
| balloonModule
| finSailModule
| castleModule
| smokeStackModule
deriving DecidableEq, Repr

/-- SHIP_MODULE_HEIGHT = 128 in game.js (SHIP_MODULE_WIDTH is equal and only used for rendering). -/
def SHIP_MODULE_HEIGHT : ℚ := 128

/-- The static solid flag of each module class: ShipModule defaults to true,
HullModule / BoilerModule / CastleModule inherit it, every other subclass sets it to false. -/
def solidK : ModuleKind → Bool
| .hullModule => true
| .boilerModule => true
| .castleModule => true
| _ => false

/-- baseFragility: 1 for HullModule and BoilerModule, 0 (indestructible) for the rest. -/
def baseFragilityK : ModuleKind → ℚ
| .hullModule => 1
| .boilerModule => 1
| _ => 0

/-- Per-cell mutable state of a ship module.  health is the instance field
(always 10 in the source), buoyancy is HullModule's field (20; unused by other kinds),
floodAmount is HullModule's flood accumulator (0 and untouched for other kinds). -/
structure ShipModule where
  kind : ModuleKind
  x : ℤ
  y : ℤ
  health : ℚ
  damage : ℚ
  damageLevel : DamageLevel
  isBeingRepaired : Bool
  floodAmount : ℚ
  buoyancy : ℚ
deriving DecidableEq, Repr

/-- The ShipModule constructor (and class-field initialisers of the subclasses). -/
def newShipModule (k : ModuleKind) (x y : ℤ) : ShipModule :=
  { kind := k
    x := x
    y := y
    health := 10
    damage := 0
    damageLevel := .normal
    isBeingRepaired := false
    floodAmount := 0
    buoyancy := if k = .hullModule then 20 else 0 }

/-- The ship grid.  columns = 5 in the source; rows is the mutable row counter;
modules is the two-dimensional array (row-major, modules[y][x]). -/
structure Ship where
  columns : ℤ
  rows : ℤ
  modules : List (List ShipModule)
deriving DecidableEq, Repr

/-- Ship.getModule(x, y) without a class filter: out-of-range indices (negative or
beyond the arrays) yield undefined in JS, modelled as none. -/
def getModule (sp : Ship) (x y : ℤ) : Option ShipModule :=
  if 0 ≤ y ∧ 0 ≤ x then
    (sp.modules.get? y.toNat).bind fun row => row.get? x.toNat
  else none

/-- Ship.getModule(x, y, ModuleClass): additionally filters by instanceof ModuleClass. -/
def getModuleOfKind (sp : Ship) (x y : ℤ) (k : ModuleKind) : Option ShipModule :=
  match getModule sp x y with
  | some m => if m.kind = k then some m else none
  | none => none

/-- Whether the cell holds a module whose (instance) solid getter is true;
an absent module counts as non-solid (the JS pattern `mod && mod.solid`). -/
def solidAt (sp : Ship) (x y : ℤ) : Bool :=
  match getModule sp x y with
  | some m => solidK m.kind
  | none => false

/-- ShipModule.percentSubmerged: clamp ((shipDraught - y*H) / H) to [0, 1]. -/
def percentSubmerged (shipDraught : ℚ) (y : ℤ) : ℚ :=
  max 0 (min 1 ((shipDraught - (y : ℚ) * SHIP_MODULE_HEIGHT) / SHIP_MODULE_HEIGHT))

/-- Whether the module at (x, y) is a CastleModule (constructor.name check in the source). -/
def isCastleAt (sp : Ship) (x y : ℤ) : Bool :=
  match getModule sp x y with
  | some m => m.kind == .castleModule
  | none => false

/-- ShipModule.fragility: 0 if baseFragility is 0; halved when a CastleModule occupies
one of the four orthogonally adjacent cells (the i/j loop skips diagonals and self). -/
def fragility (sp : Ship) (m : ShipModule) : ℚ :=
  if baseFragilityK m.kind = 0 then 0
  else if isCastleAt sp (m.x - 1) m.y || isCastleAt sp (m.x + 1) m.y
       || isCastleAt sp m.x (m.y - 1) || isCastleAt sp m.x (m.y + 1) then
    baseFragilityK m.kind * (1 / 2)
  else baseFragilityK m.kind

/-- The deferred player action held in state.currentCallback.  In the source this is an
opaque closure; the two closures that ever get stored are (a) the repair-completion
callback of ShipModule.onClick, capturing the clicked module, and (b) the
build-completion callback of NullModule's menu handler, capturing the cell and module type. -/
inductive PendingAction
| repairAction (x y : ℤ)
| buildAction (x y : ℤ) (k : ModuleKind)
deriving DecidableEq, Repr

/-- Aggregate ship stats ({weight, buoyancy, speed}); absent keys read as 0 via `|| 0`. -/
structure Stats where
  weight : ℚ
  buoyancy : ℚ
  speed : ℚ
deriving DecidableEq, Repr

/-- The session state (class State) plus the two per-session facts the claims need that
live outside the State object: the ship entity's updating flag (false until the title
screen fades) and whether a GameOverScreen entity has been pushed. -/
structure GState where
  gameRunning : Bool
  paused : Bool
  shipDraught : ℚ
  timeAfloat : ℚ
  distanceTraveled : ℚ
  speed : ℚ
  cooldown : ℚ
  currentCallback : Option PendingAction
  timeElapsed : ℚ
  ship : Ship
  shipUpdating : Bool
  gameOverScreenSpawned : Bool
deriving DecidableEq, Repr

/-- State.shipHeight: SHIP_MODULE_HEIGHT for every row that contains at least one
module whose constructor.name is not NullModule. -/
def shipHeight (sp : Ship) : ℚ :=
  (sp.modules.map fun row =>
    if row.any fun m => m.kind != .nullModule then SHIP_MODULE_HEIGHT else 0).sum

/-- State.difficultyCoefficient: max of distance/1000/2 and time/1000/60/2. -/
def difficultyCoefficient (s : GState) : ℚ :=
  max (s.distanceTraveled / 1000 / 2) (s.timeElapsed / 1000 / 60 / 2)

/-- State.doPlayerAction(delay, callback): set the global cooldown and store the single
pending callback (the wait cursor is visual only). -/
def doPlayerAction (s : GState) (delay : ℚ) (a : PendingAction) : GState :=
  { s with cooldown := delay, currentCallback := some a }

/-- BoilerModule.isGeneratingSteam.  Only BoilerModule defines this getter; reading it on
any other module yields undefined (falsy) in JS, so non-boilers give false here. -/
def isGeneratingSteam (s : GState) (m : ShipModule) : Bool :=
  if m.kind = .boilerModule then
    if percentSubmerged s.shipDraught m.y > 1 / 2 then false
    else m.damageLevel != .broken
  else false

/-- PropellerModule.isSpinning: the module directly to the left (unfiltered getModule)
exists and isGeneratingSteam. -/
def isSpinning (s : GState) (m : ShipModule) : Bool :=
  match getModule s.ship (m.x - 1) m.y with
  | some b => isGeneratingSteam s b
  | none => false

/-- BalloonModule.isInflated: the module below isGeneratingSteam.  (The source reads the
property without a null check; a balloon can only be built above a boiler, so the cell
below always exists — an absent cell is modelled as false.) -/
def isInflated (s : GState) (m : ShipModule) : Bool :=
  match getModule s.ship m.x (m.y - 1) with
  | some b => isGeneratingSteam s b
  | none => false

/-- The weight getter / field of each module class.  ShipModule's getter returns 5
(HullModule and ConstructionModule inherit it); the others override it. -/
def moduleWeight (s : GState) (m : ShipModule) : ℚ :=
  if m.kind = .nullModule then 0
  else if m.kind = .sailModule then 3 / 2
  else if m.kind = .boilerModule then 10
  else if m.kind = .propellerModule then 2
  else if m.kind = .balloonModule then (if isInflated s m then -10 else 1)
  else if m.kind = .finSailModule then 5 / 2
  else if m.kind = .castleModule then 20
  else if m.kind = .smokeStackModule then 8
  else 5

/-- HullModule's buoyancy entry of getStats(): 0 when not submerged, otherwise
buoyancy * percentSubmerged - floodAmount. -/
def hullBuoyancyStat (s : GState) (m : ShipModule) : ℚ :=
  if percentSubmerged s.shipDraught m.y > 0 then
    m.buoyancy * percentSubmerged s.shipDraught m.y - m.floodAmount
  else 0

/-- The getStats() record of a single module (base ShipModule.getStats returns {}). -/
def moduleStats (s : GState) (m : ShipModule) : Stats :=
  if m.kind = .hullModule then { weight := 0, buoyancy := hullBuoyancyStat s m, speed := 0 }
  else if m.kind = .sailModule then
    { weight := 0, buoyancy := 0
      speed := if percentSubmerged s.shipDraught m.y < 1 / 2 then 1 else 0 }
  else if m.kind = .propellerModule then
    { weight := 0, buoyancy := 0, speed := if isSpinning s m then 5 else 0 }
  else if m.kind = .finSailModule then
    { weight := 0, buoyancy := 0
      speed := if percentSubmerged s.shipDraught m.y < 1 / 2 then 1 / 2 else 0 }
  else { weight := 0, buoyancy := 0, speed := 0 }

/-- Ship.getStats(): fold every module's weight and getStats() entries into one record,
starting from {weight: 0} with missing keys read as 0. -/
def getStats (s : GState) : Stats :=
  s.ship.modules.foldl
    (fun acc row =>
      row.foldl
        (fun acc2 m =>
          let ms := moduleStats s m
          { weight := acc2.weight + moduleWeight s m
            buoyancy := acc2.buoyancy + ms.buoyancy
            speed := acc2.speed + ms.speed })
        acc)
    { weight := 0, buoyancy := 0, speed := 0 }

/-- The oracle for one module's tick: whether Math.random() < .05 fired the damage
branch, and the Math.random() factor used inside the boost. -/
structure ModOracle where
  doDamage : Bool
  r : ℚ
deriving DecidableEq, Repr

/-- The onFixed() side effect: HullModule.onFixed resets floodAmount to 0;
the base class does nothing (the sound cue is external). -/
def onFixedFx (m : ShipModule) : ShipModule :=
  if m.kind = .hullModule then { m with floodAmount := 0 } else m

/-- ShipModule.tick: the damage/level state machine.  (The spray-particle emission and
the hammer-icon update are visual only and omitted.)  When fragility is nonzero:
optionally accrue damage clamped at health, then run the level transitions in source
order — to broken when damage equals health, normal to damaged when damage exceeds
half health, back to normal (with onFixed) when damage is 0. -/
def shipModuleBaseTick (s : GState) (m : ShipModule) (dt : ℚ) (o : ModOracle) : ShipModule :=
  let frag := fragility s.ship m
  if frag ≠ 0 then
    let damage1 :=
      if o.doDamage then
        min m.health (m.damage + frag * difficultyCoefficient s * (dt / 50) * o.r)
      else m.damage
    let m1 := { m with damage := damage1 }
    if m1.damageLevel ≠ .broken ∧ m1.damage = m1.health then
      { m1 with damageLevel := .broken }
    else if m1.damageLevel = .normal ∧ m1.damage > m1.health / 2 then
      { m1 with damageLevel := .damaged }
    else if m1.damageLevel ≠ .normal ∧ m1.damage = 0 then
      onFixedFx { m1 with damageLevel := .normal }
    else m1
  else m

/-- The tick method dispatched by subclass.  NullModule.tick is empty.  HullModule.tick
returns immediately unless at least partially submerged, then runs the base tick and,
while broken, accumulates flood capped at buoyancy.  BoilerModule.tick returns when
fully submerged.  SmokeStackModule.tick calls super.tick() (its fragility is 0, so the
damage branch is inert); the remaining kinds use the base tick unchanged. -/
def moduleTick (s : GState) (m : ShipModule) (dt : ℚ) (o : ModOracle) : ShipModule :=
  if m.kind = .nullModule then m
  else if m.kind = .hullModule then
    if percentSubmerged s.shipDraught m.y > 0 then
      let m1 := shipModuleBaseTick s m dt o
      if m1.damageLevel = .broken then
        { m1 with floodAmount := min m1.buoyancy (m1.floodAmount + dt / 1000 * 2) }
      else m1
    else m
  else if m.kind = .boilerModule then
    if percentSubmerged s.shipDraught m.y ≥ 1 then m
    else shipModuleBaseTick s m dt o
  else shipModuleBaseTick s m dt o

/-- The repair-completion closure scheduled by ShipModule.onClick: damage = 0,
isBeingRepaired = false, then onFixed(). -/
def repairModule (m : ShipModule) : ShipModule :=
  onFixedFx { m with damage := 0, isBeingRepaired := false }

/-- Apply f to the module the closure captured, identified by its grid coordinates
(each module stores its own x and y). -/
def modifyModule (sp : Ship) (x y : ℤ) (f : ShipModule → ShipModule) : Ship :=
  { sp with
    modules := sp.modules.map fun row =>
      row.map fun m => if m.x = x ∧ m.y = y then f m else m }

/-- A full row of fresh NullModules (the grid never stores true nulls in occupied rows). -/
def newNullRow (cols : ℤ) (y : ℤ) : List ShipModule :=
  (List.range cols.toNat).map fun i => newShipModule .nullModule (i : ℤ) y

/-- The row-creation step of Ship.addModule: create modules[yy] as a fully populated
NullModule row if absent.  In this hole-free model a row is absent exactly when
yy equals the current number of rows (addModule is only ever called on an existing
buildable slot, so rows grow one at a time). -/
def ensureRow (sp : Ship) (yy : ℤ) : Ship :=
  if yy = (sp.modules.length : ℤ) then
    { sp with modules := sp.modules ++ [newNullRow sp.columns yy] }
  else sp

/-- modules[y][x] = m (the cell's row exists whenever addModule runs, by ensureRow). -/
def setModuleCell (sp : Ship) (x y : ℤ) (m : ShipModule) : Ship :=
  if 0 ≤ x ∧ 0 ≤ y then
    match sp.modules.get? y.toNat with
    | some row => { sp with modules := sp.modules.set y.toNat (row.set x.toNat m) }
    | none => sp
  else sp

/-- Ship.addModule(x, y, ModuleClass): bump rows to y+2 when needed, create rows y and
y+1 if absent, store the new module.  The neighbour updateDisplay refresh and the
placement particle are display-only (buildability is recomputed on demand here). -/
def addModule (sp : Ship) (x y : ℤ) (k : ModuleKind) : Ship :=
  let sp1 := if y + 1 ≥ sp.rows then { sp with rows := y + 2 } else sp
  let sp2 := ensureRow sp1 y
  let sp3 := ensureRow sp2 (y + 1)
  setModuleCell sp3 x y (newShipModule k x y)

/-- The static canBuildAt predicate of each module class (state.ship is the grid).
ShipModule's default returns true; each buildable subclass overrides it as in the source. -/
def canBuildAt (sp : Ship) (k : ModuleKind) (modX modY : ℤ) : Bool :=
  match k with
  | .hullModule =>
      if modY = 0 then solidAt sp (modX - 1) modY || solidAt sp (modX + 1) modY
      else solidAt sp modX (modY - 1)
  | .sailModule =>
      if modY = 0 then false else solidAt sp modX (modY - 1)
  | .boilerModule => solidAt sp modX (modY - 1)
  | .propellerModule =>
      match getModule sp (modX - 1) modY with
      | some m => m.kind == .boilerModule
      | none => false
  | .balloonModule =>
      match getModule sp modX (modY - 1) with
      | some m => m.kind == .boilerModule
      | none => false
  | .finSailModule => solidAt sp (modX + 1) modY
  | .castleModule => solidAt sp modX (modY - 1)
  | .smokeStackModule =>
      match getModuleOfKind sp modX (modY - 1) .boilerModule with
      | some m => solidK m.kind
      | none => false
  | _ => true

/-- Ship.canBuildModule(x, y, ModuleClass): a solid module may not occupy column 0 or
the last column; otherwise defer to the class's canBuildAt. -/
def canBuildModule (sp : Ship) (x y : ℤ) (k : ModuleKind) : Bool :=
  if solidK k = true ∧ (x = 0 ∨ x = sp.columns - 1) then false
  else canBuildAt sp k x y

/-- The moduleTypes list offered by the build menu, in source order. -/
def moduleTypes : List ModuleKind :=
  [.hullModule, .sailModule, .boilerModule, .propellerModule, .finSailModule,
   .balloonModule, .castleModule, .smokeStackModule]

/-- NullModule.updateDisplay's buildOptions: the menu types buildable at this cell. -/
def buildOptions (sp : Ship) (x y : ℤ) : List ModuleKind :=
  moduleTypes.filter fun k => canBuildModule sp x y k

/-- Whether the cell currently holds a buildable slot (a NullModule). -/
def cellIsBuildableSlot (sp : Ship) (x y : ℤ) : Bool :=
  match getModule sp x y with
  | some m => m.kind == .nullModule
  | none => false

/-- A module of kind k may be placed at (x, y): construction is only reachable by
clicking a NullModule (Ship.checkClick returns the cell's module and NullModule.onClick
offers buildOptions), so the cell must hold a buildable slot and k must be among its
build options. -/
def placeable (sp : Ship) (x y : ℤ) (k : ModuleKind) : Prop :=
  cellIsBuildableSlot sp x y = true ∧ k ∈ buildOptions sp x y

/-- ShipModule.onClick on a broken module: set isBeingRepaired (on the clicked module)
and schedule the repair-completion callback behind the 1000ms cooldown. -/
def shipModuleClick (s : GState) (x y : ℤ) : GState :=
  match getModule s.ship x y with
  | some m =>
      if m.damageLevel = .broken then
        doPlayerAction
          { s with ship := modifyModule s.ship x y fun mm => { mm with isBeingRepaired := true } }
          1000 (.repairAction x y)
      else s
  | none => s

/-- Run state.currentCallback's stored action. -/
def applyAction (s : GState) : PendingAction → GState
| .repairAction x y => { s with ship := modifyModule s.ship x y repairModule }
| .buildAction x y k => { s with ship := addModule s.ship x y k }

/-- GameController.tick.  Returns the new state and whether the pending callback was
invoked this tick.  Source order: lose-condition check (constructing GameOverScreen
sets state.cooldown = 0), early return when not running, early return while the ship
entity is not updating, cooldown decrement floored at 0, callback invocation when the
cooldown reached 0, then stats application to speed / time / distance / draught. -/
def gcTick (s : GState) (dt : ℚ) : GState × Bool :=
  let s1 :=
    if shipHeight s.ship < s.shipDraught ∧ s.gameRunning = true then
      { s with gameRunning := false, gameOverScreenSpawned := true, cooldown := 0 }
    else s
  if s1.gameRunning = false then (s1, false)
  else if s1.shipUpdating = false then (s1, false)
  else
    let s2 := { s1 with cooldown := max 0 (s1.cooldown - dt) }
    let next :=
      match s2.currentCallback with
      | some a =>
          if s2.cooldown = 0 then ({ applyAction s2 a with currentCallback := none }, true)
          else (s2, false)
      | none => (s2, false)
    let s3 := next.1
    let stats := getStats s3
    let s4 := { s3 with speed := stats.speed }
    let s5 :=
      { s4 with
        timeAfloat := s4.timeAfloat + dt
        distanceTraveled := s4.distanceTraveled + dt / 100 * s4.speed
        shipDraught := s4.shipDraught + dt / 100 * (stats.weight - stats.buoyancy) }
    (s5, next.2)

/-- Ship.tick: tick every module of the grid with its own randomness.  (The source
mutates modules sequentially, but within one pass a module's tick reads only its own
mutable fields and its neighbours' immutable kind, so mapping over the pre-tick state
is equivalent.) -/
def shipTick (s : GState) (dt : ℚ) (oracle : ℤ → ℤ → ModOracle) : GState :=
  { s with
    ship :=
      { s.ship with
        modules := s.ship.modules.map fun row =>
          row.map fun m => moduleTick s m dt (oracle m.x m.y) } }

/-- The confirm branch of NullModule's build-menu click handler: place a
ConstructionModule immediately, schedule the real module behind the 1000ms cooldown,
and unpause (the menu closes). -/
def buildConfirm (s : GState) (x y : ℤ) (k : ModuleKind) : GState :=
  let s1 := { s with ship := addModule s.ship x y .constructionModule }
  let s2 := doPlayerAction s1 1000 (.buildAction x y k)
  { s2 with paused := false }

/-- One simulation-relevant step of a session, other than setUp: a GameController tick,
a Ship tick, a click on a (broken) ship module, or a confirmed build.  The remaining
handlers of game.js (hover tracking, the pause/debug key toggles, opening or cancelling
the build menu) only touch paused/debug/hover fields; nothing in the file assigns
state.gameRunning = true — only setUp constructs a fresh State whose field initialiser
is true. -/
inductive Step
| ctrlTick (dt : ℚ)
| shipStep (dt : ℚ) (oracle : ℤ → ℤ → ModOracle)
| repairClick (x y : ℤ)
| buildConfirmStep (x y : ℤ) (k : ModuleKind)

/-- Apply one step to the session state. -/
def applyStep (s : GState) : Step → GState
| .ctrlTick dt => (gcTick s dt).1
| .shipStep dt oracle => shipTick s dt oracle
| .repairClick x y => shipModuleClick s x y
| .buildConfirmStep x y k => buildConfirm s x y k

/-- Run a list of steps in order. -/
def runSteps (s : GState) (steps : List Step) : GState :=
  steps.foldl applyStep s

/-- Run a list of GameController ticks, recording whether any of them invoked the
pending callback. -/
def runGcTicks (s : GState) : List ℚ → GState × Bool
| [] => (s, false)
| dt :: rest =>
    let first := gcTick s dt
    let later := runGcTicks first.1 rest
    (later.1, first.2 || later.2)

/-- How many deferred player actions are pending (currentCallback holds one closure or null). -/
def pendingCount (s : GState) : ℕ :=
  match s.currentCallback with
  | some _ => 1
  | none => 0

/-- An entity as seen by the canvas onClick dispatcher: the two eligibility flags and
checkClick, which returns the click target's onClick handler (checkClick may return a
different entity than the one iterated, e.g. Ship.checkClick returns a module). -/
structure EntityH where
  canClickWhilePaused : Bool
  updating : Bool
  checkClick : GState → ℚ → ℚ → Option (GState → ℚ → ℚ → GState)

/-- isEntityInteractive: ineligible while paused (unless canClickWhilePaused) or when
not updating. -/
def isEntityInteractive (s : GState) (e : EntityH) : Bool :=
  if s.paused = true ∧ e.canClickWhilePaused = false then false
  else if e.updating = false then false
  else true

/-- The dispatch loop of onClick: first interactive entity whose checkClick returns a
target gets the click (res.onClick; ev.stopPropagation), and iteration stops. -/
def dispatchClick (s : GState) (x y : ℚ) : List EntityH → GState × Bool
| [] => (s, false)
| e :: rest =>
    if isEntityInteractive s e = true then
      match e.checkClick s x y with
      | some handler => (handler s x y, true)
      | none => dispatchClick s x y rest
    else dispatchClick s x y rest

/-- The canvas onClick handler: while state.cooldown > 0 it returns before touching any
entity; otherwise it runs the dispatch loop.  The Bool records whether any entity's
onClick ran. -/
def onClickEvent (s : GState) (es : List EntityH) (x y : ℚ) : GState × Bool :=
  if s.cooldown > 0 then (s, false)
  else dispatchClick s x y es

/-- A 2D vector ({x, y} object).  Real-valued because normalisation takes a square root. -/
structure Vec2 where
  x : ℝ
  y : ℝ

/-- vectorLength: sqrt(x^2 + y^2). -/
noncomputable def vectorLength (v : Vec2) : ℝ :=
  Real.sqrt (v.x ^ 2 + v.y ^ 2)

/-- normalizeVector: divide both components by the length (the zero-length case is the
open question flagged in the design; it never arises in the claims below). -/
noncomputable def normalizeVector (v : Vec2) : Vec2 :=
  { x := v.x / vectorLength v, y := v.y / vectorLength v }

/-- addVectors (the source mutates its first argument and returns it; modelled purely). -/
def addVectors (a b : Vec2) : Vec2 :=
  { x := a.x + b.x, y := a.y + b.y }

/-- scaleVector (also mutates its first argument in the source — that mutation is what
makes Particle.tick add the force to the scaled direction, see particleTick). -/
def scaleVector (v : Vec2) (c : ℝ) : Vec2 :=
  { x := v.x * c, y := v.y * c }

/-- A particle: creation and expiry timestamps (rationals, from performance.now),
position, unit direction, constant force vector, speed scalar, and the alive flag. -/
structure Particle where
  created : ℚ
  liveUntil : ℚ
  x : ℝ
  y : ℝ
  speed : ℝ
  forceVector : Vec2
  direction : Vec2
  alive : Bool

/-- Particle.tick(deltaT, t).  Past liveUntil (strictly): mark dead, no movement.
Otherwise: move = scaleVector(this.direction, this.speed) — which ALSO overwrites
this.direction in place — then position += move, and this.direction becomes the
normalisation of (this.direction + forceVector), where this.direction is already the
scaled vector move because of the in-place mutation. -/
noncomputable def particleTick (p : Particle) (t : ℚ) : Particle :=
  if p.liveUntil < t then { p with alive := false }
  else
    let move := scaleVector p.direction p.speed
    { p with
      x := p.x + move.x
      y := p.y + move.y
      direction := normalizeVector (addVectors move p.forceVector) }

/-- The globalAlpha used by Particle.render: 1 - (t - created) / (liveUntil - created). -/
def particleAlpha (p : Particle) (t : ℚ) : ℚ :=
  1 - (t - p.created) / (p.liveUntil - p.created)

/- ## Concrete fixtures for counterexamples and witnesses -/

/-- A fresh buildable slot at (x, y). -/
def nullAt (x y : ℤ) : ShipModule := newShipModule .nullModule x y

/-- A fresh hull module at (x, y). -/
def hullAt (x y : ℤ) : ShipModule := newShipModule .hullModule x y

/-- The ship right after setUp: addModule(2, 0, HullModule) on the empty grid leaves a
hull at (2, 0) surrounded by buildable slots, with a fully null row above. -/
def ship0 : Ship :=
  { columns := 5
    rows := 2
    modules := [[nullAt 0 0, nullAt 1 0, hullAt 2 0, nullAt 3 0, nullAt 4 0],
                [nullAt 0 1, nullAt 1 1, nullAt 2 1, nullAt 3 1, nullAt 4 1]] }

/-- A running session over ship0 whose draught has risen to exactly the ship height (128). -/
def s0 : GState :=
  { gameRunning := true
    paused := false
    shipDraught := 128
    timeAfloat := 0
    distanceTraveled := 0
    speed := 0
    cooldown := 0
    currentCallback := none
    timeElapsed := 0
    ship := ship0
    shipUpdating := true
    gameOverScreenSpawned := false }

/-- A deep-in-the-water session over ship0 with a repair callback still pending behind a
live cooldown. -/
def sPending : GState :=
  { s0 with
    shipDraught := 200
    cooldown := 500
    currentCallback := some (PendingAction.repairAction 2 0) }

/-- A broken hull module at (2, 0) with full damage and some accumulated flood. -/
def brokenHull : ShipModule :=
  { hullAt 2 0 with damage := 10, damageLevel := .broken, floodAmount := 7 }

/-- A hull module at (2, 0) damaged to exactly half its health (5 of 10). -/
def halfDamagedHull : ShipModule := { hullAt 2 0 with damage := 5 }

/-- The tick oracle in which the 5% damage roll did not fire. -/
def quietOracle : ModOracle := { doDamage := false, r := 0 }

/-- An entity whose hit test always succeeds and whose click handler visibly mutates the
session — used to exhibit that the cooldown gate keeps clicks from reaching any entity. -/
def greedyEntity : EntityH :=
  { canClickWhilePaused := true
    updating := true
    checkClick := fun _ _ _ => some fun s _ _ => { s with speed := 999 } }

/-- A particle created at t = 0 with lifetime 100, default direction and force (0, -1),
default speed 5, at the origin. -/
def testParticle : Particle :=
  { created := 0
    liveUntil := 100
    x := 0
    y := 0
    speed := 5
    forceVector := { x := 0, y := -1 }
    direction := { x := 0, y := -1 }
    alive := true }

/-- A live particle whose direction (1, 0) is not parallel to its force (0, -1), so the
in-place scaling of the direction is observable in the next direction. -/
def sidewaysParticle : Particle :=
  { created := 0
    liveUntil := 100
    x := 0
    y := 0
    speed := 5
    forceVector := { x := 0, y := -1 }
    direction := { x := 1, y := 0 }
    alive := true }

/- ## Helper lemmas (shared across the claim theorems below) -/

theorem hull_ne_null : ¬(ModuleKind.hullModule = ModuleKind.nullModule) := by decide

theorem applyAction_gameRunning (s : GState) (a : PendingAction) :
    (applyAction s a).gameRunning = s.gameRunning := by
  cases a <;> rfl

theorem doPlayerAction_gameRunning (s : GState) (d : ℚ) (a : PendingAction) :
    (doPlayerAction s d a).gameRunning = s.gameRunning := rfl

theorem gcTick_not_running (s : GState) (dt : ℚ) (h : s.gameRunning = false) :
    gcTick s dt = (s, false) := by
  simp [gcTick, h]

theorem gcTick_loss (s : GState) (dt : ℚ) (hrun : s.gameRunning = true)
    (hlt : shipHeight s.ship < s.shipDraught) :
    gcTick s dt = ({ s with gameRunning := false, gameOverScreenSpawned := true, cooldown := 0 }, false) := by
  simp [gcTick, hrun, hlt]

theorem gcTick_no_loss_running (s : GState) (dt : ℚ) (hrun : s.gameRunning = true)
    (hge : ¬(shipHeight s.ship < s.shipDraught)) :
    (gcTick s dt).1.gameRunning = true := by
  simp only [gcTick, hge, false_and, if_false, hrun]
  split
  · next hfalse => simp [hrun] at hfalse
  · split
    · exact hrun
    · split
      · next a heq =>
        split
        · simp [applyAction_gameRunning, hrun]
        · simp [hrun]
      · simp [hrun]

theorem baseFragilityK_nonneg (k : ModuleKind) : 0 ≤ baseFragilityK k := by
  cases k <;> norm_num [baseFragilityK]

theorem fragility_nonneg (sp : Ship) (m : ShipModule) : 0 ≤ fragility sp m := by
  unfold fragility
  have hb := baseFragilityK_nonneg m.kind
  split_ifs
  · exact le_refl 0
  · exact mul_nonneg hb (by norm_num)
  · exact hb

theorem fragility_hull_ne (sp : Ship) (m : ShipModule) (hk : m.kind = .hullModule) :
    fragility sp m ≠ 0 := by
  unfold fragility
  rw [hk]
  norm_num [baseFragilityK]
  split_ifs <;> norm_num

theorem difficultyCoefficient_nonneg (s : GState) (hd : 0 ≤ s.distanceTraveled)
    (ht : 0 ≤ s.timeElapsed) : 0 ≤ difficultyCoefficient s := by
  unfold difficultyCoefficient
  have h : (0 : ℚ) ≤ s.distanceTraveled / 1000 / 2 := by positivity
  exact le_trans h (le_max_left _ _)

theorem onFixedFx_kind (m : ShipModule) : (onFixedFx m).kind = m.kind := by
  unfold onFixedFx; split_ifs <;> rfl

theorem onFixedFx_damage (m : ShipModule) : (onFixedFx m).damage = m.damage := by
  unfold onFixedFx; split_ifs <;> rfl

theorem onFixedFx_damageLevel (m : ShipModule) : (onFixedFx m).damageLevel = m.damageLevel := by
  unfold onFixedFx; split_ifs <;> rfl

theorem onFixedFx_isBeingRepaired (m : ShipModule) :
    (onFixedFx m).isBeingRepaired = m.isBeingRepaired := by
  unfold onFixedFx; split_ifs <;> rfl

theorem baseTick_preserves (s : GState) (m : ShipModule) (dt : ℚ) (o : ModOracle) :
    (shipModuleBaseTick s m dt o).kind = m.kind ∧
    (shipModuleBaseTick s m dt o).health = m.health ∧
    (shipModuleBaseTick s m dt o).x = m.x ∧
    (shipModuleBaseTick s m dt o).y = m.y ∧
    (shipModuleBaseTick s m dt o).buoyancy = m.buoyancy := by
  simp only [shipModuleBaseTick]
  split_ifs <;> simp [onFixedFx] <;> split_ifs <;> simp

theorem baseTick_damage (s : GState) (m : ShipModule) (dt : ℚ) (o : ModOracle) :
    (shipModuleBaseTick s m dt o).damage =
      if fragility s.ship m ≠ 0 ∧ o.doDamage = true then
        min m.health (m.damage + fragility s.ship m * difficultyCoefficient s * (dt / 50) * o.r)
      else m.damage := by
  simp only [shipModuleBaseTick]
  split_ifs with h1 h2 <;>
    simp_all [onFixedFx] <;> split_ifs <;> simp

theorem baseTick_quiet (s : GState) (m : ShipModule) (dt : ℚ) (o : ModOracle)
    (hf : fragility s.ship m ≠ 0) (ho : o.doDamage = false) :
    shipModuleBaseTick s m dt o =
      if m.damageLevel ≠ .broken ∧ m.damage = m.health then { m with damageLevel := .broken }
      else if m.damageLevel = .normal ∧ m.damage > m.health / 2 then { m with damageLevel := .damaged }
      else if m.damageLevel ≠ .normal ∧ m.damage = 0 then onFixedFx { m with damageLevel := .normal }
      else m := by
  simp only [shipModuleBaseTick, if_pos hf, ho, Bool.false_eq_true, if_false]

theorem moduleTick_hull_submerged (s : GState) (m : ShipModule) (dt : ℚ) (o : ModOracle)
    (hk : m.kind = .hullModule) (hps : percentSubmerged s.shipDraught m.y > 0) :
    moduleTick s m dt o =
      if (shipModuleBaseTick s m dt o).damageLevel = .broken then
        { shipModuleBaseTick s m dt o with
          floodAmount := min (shipModuleBaseTick s m dt o).buoyancy
            ((shipModuleBaseTick s m dt o).floodAmount + dt / 1000 * 2) }
      else shipModuleBaseTick s m dt o := by
  simp only [moduleTick, hk, if_pos hps]
  simp

theorem boost_nonneg (s : GState) (m : ShipModule) (dt : ℚ) (o : ModOracle)
    (hr : 0 ≤ o.r) (hdt : 0 ≤ dt) (hdist : 0 ≤ s.distanceTraveled) (ht : 0 ≤ s.timeElapsed) :
    0 ≤ fragility s.ship m * difficultyCoefficient s * (dt / 50) * o.r :=
  mul_nonneg
    (mul_nonneg
      (mul_nonneg (fragility_nonneg s.ship m) (difficultyCoefficient_nonneg s hdist ht))
      (by linarith))
    hr

theorem baseTick_damage_pos (s : GState) (m : ShipModule) (dt : ℚ) (o : ModOracle)
    (hr : 0 ≤ o.r) (hdt : 0 ≤ dt) (hdist : 0 ≤ s.distanceTraveled) (ht : 0 ≤ s.timeElapsed)
    (hd : 0 < m.damage) (hdh : m.damage ≤ m.health) :
    0 < (shipModuleBaseTick s m dt o).damage := by
  rw [baseTick_damage]
  split_ifs with h
  · exact lt_min (lt_of_lt_of_le hd hdh)
      (by linarith [boost_nonneg s m dt o hr hdt hdist ht])
  · exact hd

theorem baseTick_broken_fields (s : GState) (m : ShipModule) (dt : ℚ) (o : ModOracle)
    (hlvl : m.damageLevel = .broken) (hr : 0 ≤ o.r) (hdt : 0 ≤ dt)
    (hdist : 0 ≤ s.distanceTraveled) (ht : 0 ≤ s.timeElapsed)
    (hd : 0 < m.damage) (hdh : m.damage ≤ m.health) :
    (shipModuleBaseTick s m dt o).damageLevel = .broken ∧
    (shipModuleBaseTick s m dt o).floodAmount = m.floodAmount := by
  have hpos := baseTick_damage_pos s m dt o hr hdt hdist ht hd hdh
  rw [baseTick_damage] at hpos
  simp only [shipModuleBaseTick, hlvl]
  split_ifs with h1 h2 h3 h4 <;> simp_all

theorem baseTick_flood_cases (s : GState) (m : ShipModule) (dt : ℚ) (o : ModOracle) :
    (shipModuleBaseTick s m dt o).floodAmount = m.floodAmount ∨
    ((shipModuleBaseTick s m dt o).floodAmount = 0 ∧
      (shipModuleBaseTick s m dt o).damageLevel = .normal) := by
  simp only [shipModuleBaseTick, onFixedFx]
  split_ifs <;> simp

theorem baseTick_damage_bounds (s : GState) (m : ShipModule) (dt : ℚ) (o : ModOracle)
    (hr : 0 ≤ o.r) (hdt : 0 ≤ dt) (hdist : 0 ≤ s.distanceTraveled) (ht : 0 ≤ s.timeElapsed)
    (h0 : 0 ≤ m.damage) (hh : m.damage ≤ m.health) :
    0 ≤ (shipModuleBaseTick s m dt o).damage ∧
    (shipModuleBaseTick s m dt o).damage ≤ (shipModuleBaseTick s m dt o).health := by
  have hpres := (baseTick_preserves s m dt o).2.1
  rw [baseTick_damage, hpres]
  split_ifs with h
  · constructor
    · exact le_min (le_trans h0 hh) (by linarith [boost_nonneg s m dt o hr hdt hdist ht])
    · exact min_le_left _ _
  · exact ⟨h0, hh⟩

theorem shipTick_gameRunning (s : GState) (dt : ℚ) (oracle : ℤ → ℤ → ModOracle) :
    (shipTick s dt oracle).gameRunning = s.gameRunning := rfl

theorem shipModuleClick_gameRunning (s : GState) (x y : ℤ) :
    (shipModuleClick s x y).gameRunning = s.gameRunning := by
  unfold shipModuleClick
  cases getModule s.ship x y with
  | none => rfl
  | some m =>
    by_cases h : m.damageLevel = .broken
    · simp [h, doPlayerAction]
    · simp [h]

theorem buildConfirm_gameRunning (s : GState) (x y : ℤ) (k : ModuleKind) :
    (buildConfirm s x y k).gameRunning = s.gameRunning := rfl

theorem applyStep_not_running (s : GState) (st : Step) (h : s.gameRunning = false) :
    (applyStep s st).gameRunning = false := by
  cases st with
  | ctrlTick dt => rw [applyStep, gcTick_not_running s dt h]; exact h
  | shipStep dt oracle => rw [applyStep, shipTick_gameRunning]; exact h
  | repairClick x y => rw [applyStep, shipModuleClick_gameRunning]; exact h
  | buildConfirmStep x y k => rw [applyStep, buildConfirm_gameRunning]; exact h

theorem runSteps_cons (s : GState) (st : Step) (rest : List Step) :
    runSteps s (st :: rest) = runSteps (applyStep s st) rest := rfl

theorem runSteps_not_running (s : GState) (steps : List Step) (h : s.gameRunning = false) :
    (runSteps s steps).gameRunning = false := by
  induction steps generalizing s with
  | nil => exact h
  | cons st rest ih => rw [runSteps_cons]; exact ih _ (applyStep_not_running s st h)

/- ## Claim theorems -/

/-- Claim C1 (amended).  The loss transition is strict, not inclusive: GameController.tick
flips gameRunning from true to false exactly when shipHeight < shipDraught (shipHeight
being the count of rows with a non-NullModule times the module height); at
shipDraught = shipHeight no flip occurs (see the counterexample).  Once gameRunning is
false, no state-relevant step of the session (GameController tick, Ship tick, module
repair click, or confirmed build) ever makes it true again — only an explicit restart
via setUp constructs a fresh running State.  Together with the strict-flip equivalence
this means the flip happens at most once per session. -/
theorem gameRunning_flips_once_strict :
    (∀ (s : GState) (dt : ℚ), s.gameRunning = true → shipHeight s.ship < s.shipDraught →
      (gcTick s dt).1.gameRunning = false) ∧
    (∀ (s : GState) (dt : ℚ), s.gameRunning = true → (gcTick s dt).1.gameRunning = false →
      shipHeight s.ship < s.shipDraught) ∧
    (∀ (s : GState) (st : Step), s.gameRunning = false → (applyStep s st).gameRunning = false) ∧
    (∀ (s : GState) (steps : List Step), s.gameRunning = false →
      (runSteps s steps).gameRunning = false) := by
  refine ⟨fun s dt hrun hlt => ?_, fun s dt hrun hflip => ?_, applyStep_not_running,
    runSteps_not_running⟩
  · rw [gcTick_loss s dt hrun hlt]
  · by_contra hge
    rw [gcTick_no_loss_running s dt hrun hge] at hflip
    simp at hflip

/-- Claim C1 counterexample: with the session draught exactly equal to the ship height
(both 128 over the one-hull starting ship), the claimed flip condition
shipDraught ≥ shipHeight holds, yet GameController.tick leaves gameRunning true,
because the source compares strictly (state.shipHeight < state.shipDraught). -/
theorem gameRunning_no_flip_at_equality :
    shipHeight s0.ship ≤ s0.shipDraught ∧ s0.gameRunning = true ∧
    (gcTick s0 100).1.gameRunning = true := by
  refine ⟨?_, rfl, ?_⟩
  · norm_num [shipHeight, s0, ship0, hullAt, nullAt, newShipModule, SHIP_MODULE_HEIGHT,
      hull_ne_null]
  · norm_num [gcTick, s0, ship0, hullAt, nullAt, newShipModule, SHIP_MODULE_HEIGHT,
      shipHeight, hull_ne_null]

/-- Witness for C1's amended theorem at concrete inputs. -/
theorem gameRunning_flips_once_strict_witness :
    (gcTick { s0 with shipDraught := 129 } 100).1.gameRunning = false ∧
    (runSteps { s0 with gameRunning := false }
      [Step.ctrlTick 100, Step.repairClick 2 0]).gameRunning = false := by
  constructor
  · exact gameRunning_flips_once_strict.1 _ 100 rfl
      (by norm_num [shipHeight, s0, ship0, hullAt, nullAt, newShipModule, SHIP_MODULE_HEIGHT,
        hull_ne_null])
  · exact gameRunning_flips_once_strict.2.2.2 _ _ rfl

/-- Claim C10: once the loss condition has fired, the deferred player action pending at
that moment is never executed.  The loss tick itself resets the cooldown to 0 (the
GameOverScreen constructor), leaves the pending callback stored, and invokes nothing;
every subsequent GameController tick returns before the cooldown-resolution step because
gameRunning is false, so over any further sequence of ticks the callback is never
invoked and the state no longer changes. -/
theorem lost_session_never_invokes_callback :
    (∀ (s : GState) (dt : ℚ), s.gameRunning = true → shipHeight s.ship < s.shipDraught →
      gcTick s dt =
        ({ s with gameRunning := false, gameOverScreenSpawned := true, cooldown := 0 }, false)) ∧
    (∀ (s : GState) (dt : ℚ), s.gameRunning = false → gcTick s dt = (s, false)) ∧
    (∀ (s : GState) (dts : List ℚ), s.gameRunning = false → runGcTicks s dts = (s, false)) := by
  refine ⟨gcTick_loss, gcTick_not_running, fun s dts h => ?_⟩
  induction dts with
  | nil => rfl
  | cons dt rest ih =>
    rw [runGcTicks, gcTick_not_running s dt h]
    simp only [ih, Bool.false_or]

/-- Witness for C10 at concrete inputs: a lost tick with a repair callback pending, and a
dead session run through two further ticks. -/
theorem lost_session_never_invokes_callback_witness :
    gcTick sPending 100 =
      ({ sPending with gameRunning := false, gameOverScreenSpawned := true, cooldown := 0 }, false) ∧
    runGcTicks { s0 with gameRunning := false } [100, 50] = ({ s0 with gameRunning := false }, false) := by
  constructor
  · exact lost_session_never_invokes_callback.1 _ 100 rfl
      (by norm_num [shipHeight, sPending, s0, ship0, hullAt, nullAt, newShipModule,
        SHIP_MODULE_HEIGHT, hull_ne_null])
  · exact lost_session_never_invokes_callback.2.2 _ _ rfl

/-- Claim C5: the canvas onClick handler returns before touching any entity whenever the
global cooldown is positive — no entity's checkClick or onClick runs (even for an entity
whose hit test would always succeed and whose handler would mutate the session), and the
session state is returned unchanged.  Moreover currentCallback is a single slot, so at
most one deferred player action is ever pending, and doPlayerAction replaces rather than
queues: afterwards exactly one action is pending. -/
theorem cooldown_blocks_clicks :
    (∀ (s : GState) (es : List EntityH) (x y : ℚ), 0 < s.cooldown →
      onClickEvent s es x y = (s, false)) ∧
    (∀ s : GState, pendingCount s ≤ 1) ∧
    (∀ (s : GState) (delay : ℚ) (a : PendingAction),
      pendingCount (doPlayerAction s delay a) = 1) := by
  refine ⟨fun s es x y h => ?_, fun s => ?_, fun s delay a => rfl⟩
  · rw [onClickEvent, if_pos h]
  · cases h : s.currentCallback <;> simp [pendingCount, h]

/-- Witness for C5: a session with cooldown 5 ignores a click even when a greedy entity
would otherwise capture and mutate it. -/
theorem cooldown_blocks_clicks_witness :
    0 < ({ s0 with cooldown := 5 } : GState).cooldown ∧
    onClickEvent { s0 with cooldown := 5 } [greedyEntity] 3 4 = ({ s0 with cooldown := 5 }, false) ∧
    pendingCount { s0 with cooldown := 5 } ≤ 1 ∧
    pendingCount (doPlayerAction { s0 with cooldown := 5 } 1000 (.repairAction 2 0)) = 1 := by
  have h : 0 < ({ s0 with cooldown := 5 } : GState).cooldown := by norm_num
  exact ⟨h, cooldown_blocks_clicks.1 _ _ 3 4 h, cooldown_blocks_clicks.2.1 _,
    cooldown_blocks_clicks.2.2 _ 1000 _⟩

/-- Claim C6: for every cell and every module type offered by the build menu, the type
may be placed there (the cell's NullModule lists it among its build options) iff the
type's canBuildAt predicate holds, the cell currently holds a buildable slot, and — when
the type is solid — the column is neither 0 nor the last column.  This decomposes
Ship.canBuildModule exactly. -/
theorem placement_iff :
    ∀ (sp : Ship) (x y : ℤ) (k : ModuleKind), k ∈ moduleTypes →
      (placeable sp x y k ↔
        (canBuildAt sp k x y = true ∧ cellIsBuildableSlot sp x y = true ∧
          (solidK k = true → ¬(x = 0 ∨ x = sp.columns - 1)))) := by
  intro sp x y k hk
  unfold placeable buildOptions canBuildModule
  rw [List.mem_filter]
  by_cases hedge : solidK k = true ∧ (x = 0 ∨ x = sp.columns - 1)
  · rw [if_pos hedge]
    simp only [Bool.false_eq_true, and_false, false_iff]
    rintro ⟨-, -, himp⟩
    exact himp hedge.1 hedge.2
  · rw [if_neg hedge]
    rw [Classical.not_and_iff_or_not_not] at hedge
    constructor
    · rintro ⟨hcell, -, hbuild⟩
      refine ⟨hbuild, hcell, fun hsolid => ?_⟩
      rcases hedge with h | h
      · exact absurd hsolid h
      · exact h
    · rintro ⟨hbuild, hcell, -⟩
      exact ⟨hcell, hk, hbuild⟩

/-- Witness for C6: hull placement on the slot directly above the starting hull module. -/
theorem placement_iff_witness :
    ModuleKind.hullModule ∈ moduleTypes ∧
    (placeable ship0 2 1 .hullModule ↔
      (canBuildAt ship0 .hullModule 2 1 = true ∧ cellIsBuildableSlot ship0 2 1 = true ∧
        (solidK .hullModule = true → ¬((2 : ℤ) = 0 ∨ (2 : ℤ) = ship0.columns - 1)))) := by
  exact ⟨by decide, placement_iff ship0 2 1 .hullModule (by decide)⟩

/-- Claim C2 counterexample: the cooldown-expiry repair callback only sets damage = 0 and
clears the repairing flag; it does not touch damageLevel, so immediately after it runs a
broken module observably has damage 0 while its damageLevel is still broken (it returns
to normal only at a later tick of the module). -/
theorem repair_callback_leaves_broken_level :
    (repairModule brokenHull).damage = 0 ∧ (repairModule brokenHull).isBeingRepaired = false ∧
    (repairModule brokenHull).damageLevel = .broken ∧
    ¬((repairModule brokenHull).damageLevel = .normal) := by
  refine ⟨rfl, rfl, rfl, by decide⟩

/-- Claim C2 (amended).  Completing a repair is not atomic: the callback resets damage to
exactly 0 and clears isBeingRepaired but leaves damageLevel broken; the level returns to
normal (running onFixed) only at the module's next tick whose level-update executes —
for a hull module, the next tick while it is at least partially submerged and no new
damage lands.  Between the callback and that tick, damage = 0 with level broken is the
observable state. -/
theorem repair_completes_at_next_tick :
    ∀ (s : GState) (m : ShipModule) (dt : ℚ) (o : ModOracle),
      m.damageLevel = .broken →
      ((repairModule m).damage = 0 ∧ (repairModule m).isBeingRepaired = false ∧
        (repairModule m).damageLevel = .broken) ∧
      (m.kind = .hullModule → o.doDamage = false →
        0 < percentSubmerged s.shipDraught m.y →
        (moduleTick s (repairModule m) dt o).damageLevel = .normal ∧
        (moduleTick s (repairModule m) dt o).damage = 0) := by
  intro s m dt o hlvl
  have hd0 : (repairModule m).damage = 0 := by
    rw [repairModule, onFixedFx_damage]
  have hrep : (repairModule m).isBeingRepaired = false := by
    rw [repairModule, onFixedFx_isBeingRepaired]
  have hlvl2 : (repairModule m).damageLevel = .broken := by
    rw [repairModule, onFixedFx_damageLevel]; exact hlvl
  refine ⟨⟨hd0, hrep, hlvl2⟩, fun hk ho hps => ?_⟩
  have hk2 : (repairModule m).kind = .hullModule := by
    rw [repairModule, onFixedFx_kind]; exact hk
  have hy2 : (repairModule m).y = m.y := by
    rw [repairModule, onFixedFx]; split_ifs <;> rfl
  have hps2 : percentSubmerged s.shipDraught (repairModule m).y > 0 := by rw [hy2]; exact hps
  have hfrag : fragility s.ship (repairModule m) ≠ 0 := fragility_hull_ne _ _ hk2
  have hbase : shipModuleBaseTick s (repairModule m) dt o
      = onFixedFx { repairModule m with damageLevel := DamageLevel.normal } := by
    rw [baseTick_quiet s (repairModule m) dt o hfrag ho]
    rw [if_neg (by rintro ⟨h, -⟩; exact h hlvl2),
      if_neg (by rintro ⟨h, -⟩; rw [hlvl2] at h; exact DamageLevel.noConfusion h),
      if_pos ⟨by rw [hlvl2]; simp, hd0⟩]
  have hlvl3 : (onFixedFx { repairModule m with damageLevel := DamageLevel.normal }).damageLevel
      = .normal := by rw [onFixedFx_damageLevel]
  have hdmg3 : (onFixedFx { repairModule m with damageLevel := DamageLevel.normal }).damage
      = 0 := by rw [onFixedFx_damage]; exact hd0
  rw [moduleTick_hull_submerged s (repairModule m) dt o hk2 hps2, hbase,
    if_neg (by rw [hlvl3]; simp)]
  exact ⟨hlvl3, hdmg3⟩

/-- Witness for C2's amended theorem: the broken hull fixture, repaired while submerged. -/
theorem repair_completes_at_next_tick_witness :
    (repairModule brokenHull).damage = 0 ∧ (repairModule brokenHull).isBeingRepaired = false ∧
    (repairModule brokenHull).damageLevel = .broken ∧
    (moduleTick s0 (repairModule brokenHull) 100 quietOracle).damageLevel = .normal ∧
    (moduleTick s0 (repairModule brokenHull) 100 quietOracle).damage = 0 := by
  have h := repair_completes_at_next_tick s0 brokenHull 100 quietOracle rfl
  have h2 := h.2 rfl rfl (by
    norm_num [percentSubmerged, SHIP_MODULE_HEIGHT, s0, brokenHull, hullAt, newShipModule])
  exact ⟨h.1.1, h.1.2.1, h.1.2.2, h2.1, h2.2⟩

/-- Claim C3 counterexample: a hull module damaged to exactly half its health (5 of 10)
keeps damage level normal after a tick — the source transitions to damaged only when
damage strictly exceeds health / 2. -/
theorem half_damage_stays_normal :
    halfDamagedHull.damage = halfDamagedHull.health / 2 ∧
    halfDamagedHull.damageLevel = .normal ∧
    (moduleTick s0 halfDamagedHull 100 quietOracle).damageLevel = .normal := by
  refine ⟨by norm_num [halfDamagedHull, hullAt, newShipModule], rfl, ?_⟩
  have hk : halfDamagedHull.kind = .hullModule := rfl
  have hps : percentSubmerged s0.shipDraught halfDamagedHull.y > 0 := by
    norm_num [percentSubmerged, SHIP_MODULE_HEIGHT, s0, halfDamagedHull, hullAt, newShipModule]
  have hfrag : fragility s0.ship halfDamagedHull ≠ 0 := fragility_hull_ne _ _ hk
  have hbase : shipModuleBaseTick s0 halfDamagedHull 100 quietOracle = halfDamagedHull := by
    rw [baseTick_quiet s0 halfDamagedHull 100 quietOracle hfrag rfl]
    rw [if_neg (by rintro ⟨-, h⟩; norm_num [halfDamagedHull, hullAt, newShipModule] at h),
      if_neg (by rintro ⟨-, h⟩; norm_num [halfDamagedHull, hullAt, newShipModule] at h),
      if_neg (by rintro ⟨h, -⟩; exact h rfl)]
  rw [moduleTick_hull_submerged s0 halfDamagedHull 100 quietOracle hk hps, hbase]
  rw [if_neg (by decide)]
  rfl

/-- Claim C3 (amended).  For any fragile module (fragility nonzero) with level normal, in
a tick whose damage roll does not fire: the level becomes broken when damage equals
health exactly; it becomes damaged when damage strictly exceeds half the health (and is
not equal to health); and at damage less than or equal to exactly half the health —
including the claim's exactly-half case — it stays normal.  For a (partially submerged)
hull module, HullModule.tick reports exactly the level computed by this state machine:
the flood wrapper never changes the damage level. -/
theorem damage_level_thresholds :
    ∀ (s : GState) (m : ShipModule) (dt : ℚ) (o : ModOracle),
      fragility s.ship m ≠ 0 → m.damageLevel = .normal → o.doDamage = false →
      (((m.damage = m.health → (shipModuleBaseTick s m dt o).damageLevel = .broken) ∧
        (m.health / 2 < m.damage → ¬(m.damage = m.health) →
          (shipModuleBaseTick s m dt o).damageLevel = .damaged) ∧
        (0 < m.health → m.damage ≤ m.health / 2 →
          (shipModuleBaseTick s m dt o).damageLevel = .normal)) ∧
       (m.kind = .hullModule → 0 < percentSubmerged s.shipDraught m.y →
         (moduleTick s m dt o).damageLevel = (shipModuleBaseTick s m dt o).damageLevel)) := by
  intro s m dt o hfrag hlvl ho
  constructor
  · refine ⟨fun hdh => ?_, fun hgt hne => ?_, fun hh hle => ?_⟩
    · have hbase : shipModuleBaseTick s m dt o = { m with damageLevel := DamageLevel.broken } := by
        rw [baseTick_quiet s m dt o hfrag ho]
        rw [if_pos ⟨by rw [hlvl]; simp, hdh⟩]
      rw [hbase]
    · have hbase : shipModuleBaseTick s m dt o = { m with damageLevel := DamageLevel.damaged } := by
        rw [baseTick_quiet s m dt o hfrag ho]
        rw [if_neg (by rintro ⟨-, h⟩; exact hne h), if_pos ⟨hlvl, hgt⟩]
      rw [hbase]
    · have hne : ¬(m.damage = m.health) := by
        intro h; rw [h] at hle; linarith
      have hbase : shipModuleBaseTick s m dt o = m := by
        rw [baseTick_quiet s m dt o hfrag ho]
        rw [if_neg (by rintro ⟨-, h⟩; exact hne h),
          if_neg (by rintro ⟨-, h⟩; linarith),
          if_neg (by rintro ⟨h, -⟩; exact h hlvl)]
      rw [hbase]
      exact hlvl
  · intro hk hps
    rw [moduleTick_hull_submerged s m dt o hk hps]
    split_ifs with hbr <;> rfl

/-- Witness for C3's amended theorem at concrete inputs: the three threshold cases at
damage 10, 6 and 5 on a health-10 hull module, and the hull tick reporting the state
machine's level. -/
theorem damage_level_thresholds_witness :
    (shipModuleBaseTick s0 { halfDamagedHull with damage := 10 } 100 quietOracle).damageLevel
      = .broken ∧
    (shipModuleBaseTick s0 { halfDamagedHull with damage := 6 } 100 quietOracle).damageLevel
      = .damaged ∧
    (shipModuleBaseTick s0 halfDamagedHull 100 quietOracle).damageLevel = .normal ∧
    (moduleTick s0 halfDamagedHull 100 quietOracle).damageLevel
      = (shipModuleBaseTick s0 halfDamagedHull 100 quietOracle).damageLevel := by
  have hfr : ∀ d : ℚ,
      fragility s0.ship ({ halfDamagedHull with damage := d } : ShipModule) ≠ 0 :=
    fun d => fragility_hull_ne _ _ rfl
  refine ⟨?_, ?_, ?_, ?_⟩
  · exact ((damage_level_thresholds s0 { halfDamagedHull with damage := 10 } 100 quietOracle
      (hfr 10) rfl rfl).1).1 (by norm_num [halfDamagedHull, hullAt, newShipModule])
  · exact ((damage_level_thresholds s0 { halfDamagedHull with damage := 6 } 100 quietOracle
      (hfr 6) rfl rfl).1).2.1
      (by norm_num [halfDamagedHull, hullAt, newShipModule])
      (by norm_num [halfDamagedHull, hullAt, newShipModule])
  · exact ((damage_level_thresholds s0 halfDamagedHull 100 quietOracle
      (fragility_hull_ne _ _ rfl) rfl rfl).1).2.2
      (by norm_num [halfDamagedHull, hullAt, newShipModule])
      (by norm_num [halfDamagedHull, hullAt, newShipModule])
  · exact (damage_level_thresholds s0 halfDamagedHull 100 quietOracle
      (fragility_hull_ne _ _ rfl) rfl rfl).2 rfl
      (by norm_num [percentSubmerged, SHIP_MODULE_HEIGHT, s0, halfDamagedHull, hullAt,
        newShipModule])

/-- Claim C4: for every module, damage stays within [0, health].  The constructor starts
damage at 0 (within bounds since health is 10); every tick's stochastic increase is
clamped at health by Math.min, so a tick preserves the bounds whenever the time delta and
random factor are nonnegative (and distance/time accounting has not gone negative); and
the repair callback — the only decrease — sets damage to exactly 0. -/
theorem damage_always_in_bounds :
    (∀ (k : ModuleKind) (x y : ℤ), (newShipModule k x y).damage = 0 ∧
      0 ≤ (newShipModule k x y).damage ∧
      (newShipModule k x y).damage ≤ (newShipModule k x y).health) ∧
    (∀ (s : GState) (m : ShipModule) (dt : ℚ) (o : ModOracle),
      0 ≤ o.r → 0 ≤ dt → 0 ≤ s.distanceTraveled → 0 ≤ s.timeElapsed →
      0 ≤ m.damage → m.damage ≤ m.health →
      0 ≤ (moduleTick s m dt o).damage ∧
        (moduleTick s m dt o).damage ≤ (moduleTick s m dt o).health) ∧
    (∀ m : ShipModule, (repairModule m).damage = 0) := by
  refine ⟨fun k x y => ⟨rfl, le_refl 0, by norm_num [newShipModule]⟩,
    fun s m dt o hr hdt hdist ht h0 hh => ?_,
    fun m => by rw [repairModule, onFixedFx_damage]⟩
  simp only [moduleTick]
  split_ifs with h1 h2 h3 h4 h5 h6
  · exact ⟨h0, hh⟩
  · exact baseTick_damage_bounds s m dt o hr hdt hdist ht h0 hh
  · exact baseTick_damage_bounds s m dt o hr hdt hdist ht h0 hh
  · exact ⟨h0, hh⟩
  · exact ⟨h0, hh⟩
  · exact baseTick_damage_bounds s m dt o hr hdt hdist ht h0 hh
  · exact baseTick_damage_bounds s m dt o hr hdt hdist ht h0 hh

/-- Witness for C4 at concrete inputs: a fresh hull module, one tick of the fully damaged
broken hull, and its repair. -/
theorem damage_always_in_bounds_witness :
    (newShipModule .hullModule 2 0).damage = 0 ∧
    (0 ≤ (moduleTick s0 brokenHull 100 quietOracle).damage ∧
      (moduleTick s0 brokenHull 100 quietOracle).damage ≤
        (moduleTick s0 brokenHull 100 quietOracle).health) ∧
    (repairModule brokenHull).damage = 0 := by
  refine ⟨(damage_always_in_bounds.1 .hullModule 2 0).1, ?_, damage_always_in_bounds.2.2 brokenHull⟩
  exact damage_always_in_bounds.2.1 s0 brokenHull 100 quietOracle
    (le_refl 0) (by norm_num) (le_refl 0) (le_refl 0)
    (by norm_num [brokenHull, hullAt, newShipModule])
    (by norm_num [brokenHull, hullAt, newShipModule])

/-- Claim C7: a broken hull module that is at least partially submerged accumulates flood
each tick, capped at its buoyancy field; the accumulation is strictly increasing while
below the cap and never exceeds it.  Its buoyancy stat is 0 when not submerged and
buoyancy × percentSubmerged − floodAmount otherwise.  Flood resets to 0 only through
repair completion: the repair callback zeroes it, and the only way a tick lowers
floodAmount is the broken-to-normal transition (damage back at 0, i.e. repair
completion), which zeroes it. -/
theorem hull_flood_and_buoyancy :
    (∀ (s : GState) (m : ShipModule) (dt : ℚ) (o : ModOracle),
      m.kind = .hullModule → m.damageLevel = .broken → 0 < m.damage → m.damage ≤ m.health →
      0 ≤ o.r → 0 ≤ dt → 0 ≤ s.distanceTraveled → 0 ≤ s.timeElapsed →
      0 ≤ m.floodAmount → m.floodAmount ≤ m.buoyancy →
      0 < percentSubmerged s.shipDraught m.y →
      ((moduleTick s m dt o).floodAmount = min m.buoyancy (m.floodAmount + dt / 1000 * 2) ∧
        m.floodAmount ≤ (moduleTick s m dt o).floodAmount ∧
        (moduleTick s m dt o).floodAmount ≤ m.buoyancy ∧
        (0 < dt → m.floodAmount < m.buoyancy →
          m.floodAmount < (moduleTick s m dt o).floodAmount))) ∧
    (∀ (s : GState) (m : ShipModule), m.kind = .hullModule →
      (percentSubmerged s.shipDraught m.y = 0 → (moduleStats s m).buoyancy = 0) ∧
      (0 < percentSubmerged s.shipDraught m.y →
        (moduleStats s m).buoyancy =
          m.buoyancy * percentSubmerged s.shipDraught m.y - m.floodAmount)) ∧
    (∀ m : ShipModule, m.kind = .hullModule → (repairModule m).floodAmount = 0) ∧
    (∀ (s : GState) (m : ShipModule) (dt : ℚ) (o : ModOracle),
      0 ≤ dt → 0 ≤ m.floodAmount → m.floodAmount ≤ m.buoyancy →
      (moduleTick s m dt o).floodAmount < m.floodAmount →
      ((moduleTick s m dt o).floodAmount = 0 ∧
        (moduleTick s m dt o).damageLevel = .normal)) := by
  refine ⟨fun s m dt o hk hlvl hd hdh hr hdt hdist ht h0f hfb hps => ?_,
    fun s m hk => ?_, fun m hk => ?_, fun s m dt o hdt h0f hfb hlt => ?_⟩
  · have hbfields := baseTick_broken_fields s m dt o hlvl hr hdt hdist ht hd hdh
    have hbuoy := (baseTick_preserves s m dt o).2.2.2.2
    have heq : moduleTick s m dt o =
        { shipModuleBaseTick s m dt o with
          floodAmount := min (shipModuleBaseTick s m dt o).buoyancy
            ((shipModuleBaseTick s m dt o).floodAmount + dt / 1000 * 2) } := by
      rw [moduleTick_hull_submerged s m dt o hk hps, if_pos hbfields.1]
    have hflood : (moduleTick s m dt o).floodAmount
        = min m.buoyancy (m.floodAmount + dt / 1000 * 2) := by
      rw [heq]
      show min (shipModuleBaseTick s m dt o).buoyancy
        ((shipModuleBaseTick s m dt o).floodAmount + dt / 1000 * 2)
        = min m.buoyancy (m.floodAmount + dt / 1000 * 2)
      rw [hbuoy, hbfields.2]
    refine ⟨hflood, ?_, ?_, fun hdtpos hstrict => ?_⟩
    · rw [hflood]; exact le_min hfb (by linarith)
    · rw [hflood]; exact min_le_left _ _
    · rw [hflood]; exact lt_min hstrict (by linarith)
  · constructor
    · intro hps0
      simp only [moduleStats, hk, if_pos, hullBuoyancyStat]
      rw [if_neg (by rw [hps0]; exact lt_irrefl 0)]
    · intro hps
      simp only [moduleStats, hk, if_pos, hullBuoyancyStat]
      rw [if_pos hps]
  · simp only [repairModule, onFixedFx]
    rw [if_pos hk]
  · simp only [moduleTick] at hlt ⊢
    split_ifs at hlt ⊢ with h1 h2 h3 h4 h5 h6
    · exact absurd hlt (lt_irrefl _)
    · exfalso
      have hbuoy := (baseTick_preserves s m dt o).2.2.2.2
      rcases baseTick_flood_cases s m dt o with hsame | ⟨-, hnorm⟩
      · revert hlt
        show ¬(min (shipModuleBaseTick s m dt o).buoyancy
          ((shipModuleBaseTick s m dt o).floodAmount + dt / 1000 * 2) < m.floodAmount)
        rw [hbuoy, hsame]
        push_neg
        exact le_min hfb (by linarith)
      · rw [hnorm] at h4; exact DamageLevel.noConfusion h4
    · rcases baseTick_flood_cases s m dt o with hsame | ⟨hzero, hnorm⟩
      · rw [hsame] at hlt; exact absurd hlt (lt_irrefl _)
      · exact ⟨hzero, hnorm⟩
    · exact absurd hlt (lt_irrefl _)
    · exact absurd hlt (lt_irrefl _)
    · rcases baseTick_flood_cases s m dt o with hsame | ⟨hzero, hnorm⟩
      · rw [hsame] at hlt; exact absurd hlt (lt_irrefl _)
      · exact ⟨hzero, hnorm⟩
    · rcases baseTick_flood_cases s m dt o with hsame | ⟨hzero, hnorm⟩
      · rw [hsame] at hlt; exact absurd hlt (lt_irrefl _)
      · exact ⟨hzero, hnorm⟩

/-- Witness for C7 at concrete inputs: one submerged tick of the broken hull fixture
(flood 7 grows to 7.2 toward the cap 20), its stats, and its repair. -/
theorem hull_flood_and_buoyancy_witness :
    (moduleTick s0 brokenHull 100 quietOracle).floodAmount
      = min brokenHull.buoyancy (brokenHull.floodAmount + (100 : ℚ) / 1000 * 2) ∧
    brokenHull.floodAmount < (moduleTick s0 brokenHull 100 quietOracle).floodAmount ∧
    (0 < percentSubmerged s0.shipDraught brokenHull.y →
      (moduleStats s0 brokenHull).buoyancy =
        brokenHull.buoyancy * percentSubmerged s0.shipDraught brokenHull.y
          - brokenHull.floodAmount) ∧
    (repairModule brokenHull).floodAmount = 0 := by
  have hps : 0 < percentSubmerged s0.shipDraught brokenHull.y := by
    norm_num [percentSubmerged, SHIP_MODULE_HEIGHT, s0, brokenHull, hullAt, newShipModule]
  have h := hull_flood_and_buoyancy.1 s0 brokenHull 100 quietOracle rfl rfl
    (by norm_num [brokenHull, hullAt, newShipModule])
    (by norm_num [brokenHull, hullAt, newShipModule])
    (le_refl 0) (by norm_num) (le_refl 0) (le_refl 0)
    (by norm_num [brokenHull, hullAt, newShipModule])
    (by norm_num [brokenHull, hullAt, newShipModule]) hps
  refine ⟨h.1, h.2.2.2 (by norm_num) (by norm_num [brokenHull, hullAt, newShipModule]), ?_, ?_⟩
  · exact fun hp => (hull_flood_and_buoyancy.2.1 s0 brokenHull rfl).2 hp
  · exact hull_flood_and_buoyancy.2.2.1 brokenHull rfl

/-- Claim C8 counterexample: at tick time t exactly equal to created + L (= liveUntil),
the particle is NOT dead — the source tests t > liveUntil strictly, so at t = liveUntil
the particle stays alive and still moves (here its y moves from 0 to -5). -/
theorem particle_alive_at_expiry :
    (100 : ℚ) = testParticle.created + (testParticle.liveUntil - testParticle.created) ∧
    (particleTick testParticle 100).alive = true ∧
    ¬((particleTick testParticle 100).y = testParticle.y) := by
  have hc : ¬(testParticle.liveUntil < (100 : ℚ)) := by norm_num [testParticle]
  refine ⟨by norm_num [testParticle], ?_, ?_⟩
  · simp only [particleTick, if_neg hc]
    rfl
  · simp only [particleTick, if_neg hc]
    norm_num [testParticle, scaleVector]

/-- Claim C8 (amended).  A particle is dead — alive set to false with no movement — for
every tick time strictly past liveUntil = created + L, and alive (moving by
direction × speed) for every tick time up to and including liveUntil.  The rendered
alpha is 1 at t = created, 0 at t = created + L, and interpolates linearly in between
(equal time steps lose equal alpha). -/
theorem particle_lifetime_and_alpha :
    ∀ (p : Particle) (t : ℚ),
      (p.liveUntil < t → particleTick p t = { p with alive := false }) ∧
      (t ≤ p.liveUntil →
        ((particleTick p t).alive = p.alive ∧
         (particleTick p t).x = p.x + p.direction.x * p.speed ∧
         (particleTick p t).y = p.y + p.direction.y * p.speed)) ∧
      particleAlpha p p.created = 1 ∧
      (p.created < p.liveUntil → particleAlpha p p.liveUntil = 0) ∧
      (∀ t1 t2 : ℚ, particleAlpha p t1 - particleAlpha p t2
        = (t2 - t1) / (p.liveUntil - p.created)) := by
  intro p t
  refine ⟨fun h => ?_, fun h => ?_, ?_, fun h => ?_, fun t1 t2 => ?_⟩
  · simp only [particleTick, if_pos h]
  · have hc : ¬(p.liveUntil < t) := not_lt.mpr h
    simp only [particleTick, if_neg hc]
    simp [scaleVector]
  · simp [particleAlpha]
  · rw [particleAlpha, div_self (sub_ne_zero.mpr (ne_of_gt h))]
    norm_num
  · simp only [particleAlpha]
    ring

/-- Witness for C8's amended theorem on the concrete test particle: dead past expiry,
alive at t = 50, alpha 1 at creation and 0 at expiry. -/
theorem particle_lifetime_and_alpha_witness :
    particleTick testParticle 200 = { testParticle with alive := false } ∧
    (particleTick testParticle 50).alive = testParticle.alive ∧
    particleAlpha testParticle 0 = 1 ∧
    particleAlpha testParticle 100 = 0 := by
  refine ⟨(particle_lifetime_and_alpha testParticle 200).1 (by norm_num [testParticle]),
    ((particle_lifetime_and_alpha testParticle 50).2.1 (by norm_num [testParticle])).1,
    (particle_lifetime_and_alpha testParticle 0).2.2.1,
    (particle_lifetime_and_alpha testParticle 0).2.2.2.1 (by norm_num [testParticle])⟩

/-- Claim C9 counterexample: because scaleVector mutates this.direction in place, the
next direction is the normalisation of (direction × speed + forceVector), not of
(direction + forceVector).  With direction (1, 0), speed 5, force (0, -1) the code
yields normalize (5, -1) while the claim demands normalize (1, -1); their y components
-1/sqrt 26 and -1/sqrt 2 differ. -/
theorem direction_update_uses_scaled_direction :
    ¬((particleTick sidewaysParticle 10).direction =
      normalizeVector (addVectors sidewaysParticle.direction sidewaysParticle.forceVector)) := by
  intro hcontra
  have hc : ¬(sidewaysParticle.liveUntil < (10 : ℚ)) := by norm_num [sidewaysParticle]
  have h2 : (0 : ℝ) < Real.sqrt 2 := Real.sqrt_pos.mpr (by norm_num)
  have h26 : (0 : ℝ) < Real.sqrt 26 := Real.sqrt_pos.mpr (by norm_num)
  have hlt : Real.sqrt 2 < Real.sqrt 26 := Real.sqrt_lt_sqrt (by norm_num) (by norm_num)
  simp only [particleTick, if_neg hc] at hcontra
  simp only [sidewaysParticle, scaleVector, addVectors, normalizeVector, vectorLength,
    Vec2.mk.injEq] at hcontra
  obtain ⟨-, hy⟩ := hcontra
  norm_num at hy
  rw [div_eq_div_iff h26.ne' h2.ne'] at hy
  have h226 : Real.sqrt 2 = Real.sqrt 26 := by linarith
  exact absurd h226 (ne_of_lt hlt)

/-- Claim C9 (amended).  A live tick displaces the position by the OLD unit direction
times speed (that part of the claim is as in the source), but the new direction is the
normalisation of (old direction × speed + forceVector): scaleVector scales the direction
object in place, so the force is added to the already-scaled vector. -/
theorem particle_tick_displacement_and_direction :
    ∀ (p : Particle) (t : ℚ), t ≤ p.liveUntil →
      ((particleTick p t).x = p.x + p.direction.x * p.speed ∧
       (particleTick p t).y = p.y + p.direction.y * p.speed ∧
       (particleTick p t).direction =
         normalizeVector (addVectors (scaleVector p.direction p.speed) p.forceVector)) := by
  intro p t h
  have hc : ¬(p.liveUntil < t) := not_lt.mpr h
  simp only [particleTick, if_neg hc]
  simp [scaleVector]

/-- Witness for C9's amended theorem on the concrete sideways particle. -/
theorem particle_tick_displacement_and_direction_witness :
    (particleTick sidewaysParticle 10).x
        = sidewaysParticle.x + sidewaysParticle.direction.x * sidewaysParticle.speed ∧
    (particleTick sidewaysParticle 10).y
        = sidewaysParticle.y + sidewaysParticle.direction.y * sidewaysParticle.speed ∧
    (particleTick sidewaysParticle 10).direction =
      normalizeVector (addVectors (scaleVector sidewaysParticle.direction sidewaysParticle.speed)
        sidewaysParticle.forceVector) :=
  particle_tick_displacement_and_direction sidewaysParticle 10 (by norm_num [sidewaysParticle])

end ISinkNot
